import Mathlib

/-!
Shallow embedding of `src/main.rs` of the wgpu hello-triangle program.

The program has two components, `RenderContext` and `Renderer`, driven by a
winit event loop.  GPU-driver round trips (adapter/device acquisition, surface
texture acquisition, validation-scope resolution) are modelled by an explicit
driver oracle (`InitDriver` for startup, `DriverFrame` per redraw).  Observable
behaviour (console prints, redraw requests, GPU commands) is modelled as an
effect trace.  Rust panics (from `expect`, slice indexing, and the explicit
`panic!` in `main`) are modelled by the `Panic` type.
-/

namespace Triangle

/-- A wgpu `TextureFormat`, abstract: only identity matters to this program. -/
structure TextureFormat where
  id : Nat
deriving DecidableEq, Repr

/-- A wgpu validation error as reported by the driver; its message is opaque
to the program, which only formats and prints it. -/
structure GpuError where
  code : Nat
deriving DecidableEq, Repr

/-- The wgpu `PresentMode` variants. -/
inductive PresentMode
  | AutoVsync
  | AutoNoVsync
  | Fifo
  | FifoRelaxed
  | Immediate
  | Mailbox
deriving DecidableEq, Repr

/-- Follows the spec words, not the source: which presentation modes are
non-blocking / no-sync, per the wgpu documentation of `PresentMode`
(`Immediate`, `Mailbox` and `AutoNoVsync` never wait for vertical sync;
`Fifo`, `FifoRelaxed` and `AutoVsync` are the vsync modes, and
`Surface::get_current_texture` can block under `Fifo`). -/
def specNoSyncMode : PresentMode → Bool
  | .Immediate => true
  | .Mailbox => true
  | .AutoNoVsync => true
  | _ => false

/-- `TextureUsages::RENDER_ATTACHMENT` bit flag. -/
def RENDER_ATTACHMENT : Nat := 16

/-- `BufferUsages::VERTEX` bit flag. -/
def VERTEX_USAGE : Nat := 32

/-- The wgpu `SurfaceConfiguration` record passed to `Surface::configure`. -/
structure SurfaceConfiguration where
  format : TextureFormat
  width : Nat
  height : Nat
  usage : Nat
  present_mode : PresentMode
deriving DecidableEq, Repr

/-- The immutable fields of the Rust `RenderContext` struct: handles plus the
chosen surface format.  Handles are abstract numeric identities. -/
structure RenderContext where
  instanceId : Nat
  device : Nat
  queue : Nat
  window : Nat
  surface : Nat
  format : TextureFormat
deriving DecidableEq, Repr

/-- Driver-side state of the surface: its current configuration, set by
`Surface::configure` (none before the first call). -/
structure SurfaceState where
  config : Option SurfaceConfiguration
deriving DecidableEq, Repr

/-- `wgpu::Color`, components here restricted to the integral values the
program uses (the Rust fields are `f64`; `Color::RED` has exact small
integer components). -/
structure Color where
  r : Nat
  g : Nat
  b : Nat
  a : Nat
deriving DecidableEq, Repr

/-- `Color::RED`: red 1.0, green 0.0, blue 0.0, alpha 1.0. -/
def Color.RED : Color := { r := 1, g := 0, b := 0, a := 1 }

/-- `wgpu::LoadOp` for a color attachment. -/
inductive LoadOp
  | Clear (c : Color)
  | Load
deriving DecidableEq, Repr

/-- `wgpu::Operations` on a color attachment. -/
structure Operations where
  load : LoadOp
  store : Bool
deriving DecidableEq, Repr

/-- `wgpu::RenderPassColorAttachment`; the view is a texture-view handle. -/
structure RenderPassColorAttachment where
  ops : Operations
  view : Nat
  resolveTarget : Option Nat
deriving DecidableEq, Repr

/-- `wgpu::VertexFormat` (only the variant used by the program). -/
inductive VertexFormat
  | Float32x2
deriving DecidableEq, Repr

/-- `wgpu::VertexStepMode` (only the variant used by the program). -/
inductive VertexStepMode
  | Vertex
deriving DecidableEq, Repr

/-- One entry of `vertex_attr_array!`. -/
structure VertexAttribute where
  format : VertexFormat
  offset : Nat
  shaderLocation : Nat
deriving DecidableEq, Repr

/-- `wgpu::VertexBufferLayout`. -/
structure VertexBufferLayout where
  arrayStride : Nat
  stepMode : VertexStepMode
  attributes : List VertexAttribute
deriving DecidableEq, Repr

/-- `wgpu::PrimitiveTopology`. -/
inductive PrimitiveTopology
  | PointList
  | LineList
  | LineStrip
  | TriangleList
  | TriangleStrip
deriving DecidableEq, Repr

/-- `wgpu::FrontFace`. -/
inductive FrontFace
  | Ccw
  | Cw
deriving DecidableEq, Repr

/-- `wgpu::PolygonMode`. -/
inductive PolygonMode
  | Fill
  | Line
  | Point
deriving DecidableEq, Repr

/-- `wgpu::PrimitiveState`. -/
structure PrimitiveState where
  topology : PrimitiveTopology
  stripIndexFormat : Option Nat
  frontFace : FrontFace
  cullMode : Option Nat
  unclippedDepth : Bool
  polygonMode : PolygonMode
  conservative : Bool
deriving DecidableEq, Repr

/-- `PrimitiveState::default()`. -/
def PrimitiveState.default : PrimitiveState :=
  { topology := .TriangleList, stripIndexFormat := none, frontFace := .Ccw,
    cullMode := none, unclippedDepth := false, polygonMode := .Fill,
    conservative := false }

/-- `wgpu::MultisampleState`. -/
structure MultisampleState where
  count : Nat
  mask : Nat
  alphaToCoverageEnabled : Bool
deriving DecidableEq, Repr

/-- `MultisampleState::default()`: 1 sample, full mask (u64 all-ones). -/
def MultisampleState.default : MultisampleState :=
  { count := 1, mask := 2 ^ 64 - 1, alphaToCoverageEnabled := false }

/-- `wgpu::ColorTargetState`; blend state is abstract (the program only ever
uses `None`). -/
structure ColorTargetState where
  format : TextureFormat
  blend : Option Nat
  writeMask : Nat
deriving DecidableEq, Repr

/-- `impl From<TextureFormat> for ColorTargetState`: no blending, all
channels writable (`ColorWrites::ALL` = 0xF). -/
def ColorTargetState.ofFormat (format : TextureFormat) : ColorTargetState :=
  { format := format, blend := none, writeMask := 15 }

/-- The data of the `RenderPipelineDescriptor` built in `Renderer::new`;
the created pipeline object is determined by this descriptor. -/
structure RenderPipelineDesc where
  bindGroupLayouts : List Unit
  pushConstantRanges : List Unit
  vertexEntryPoint : String
  vertexBuffers : List VertexBufferLayout
  fragmentEntryPoint : Option String
  fragmentTargets : List (Option ColorTargetState)
  primitive : PrimitiveState
  depthStencil : Option Unit
  multisample : MultisampleState
  multiview : Option Nat
deriving DecidableEq, Repr

/-- A created buffer: its usage flags and exact byte contents
(`BufferInitDescriptor`). -/
structure BufferDesc where
  usage : Nat
  contents : List Nat
deriving DecidableEq, Repr

/-- The Rust `Vertex` struct: a 2D position of two `f32` values, each
represented by its IEEE-754 single-precision bit pattern (the program never
does arithmetic on them; only their bytes matter). -/
structure Vertex where
  pos : Nat × Nat
deriving DecidableEq, Repr

/-- `size_of::<Vertex>()`: two 4-byte floats. -/
def VERTEX_SIZE : Nat := 8

/-- IEEE-754 single-precision bit pattern of the literal `-1.0f32`. -/
def f32BitsNegOne : Nat := 0xBF800000

/-- IEEE-754 single-precision bit pattern of the literal `0.0f32`. -/
def f32BitsZero : Nat := 0x00000000

/-- IEEE-754 single-precision bit pattern of the literal `1.0f32`. -/
def f32BitsOne : Nat := 0x3F800000

/-- Little-endian 4-byte serialization of a 32-bit word. -/
def leBytes4 (w : Nat) : List Nat :=
  [w % 256, w / 256 % 256, w / 65536 % 256, w / 16777216 % 256]

/-- Byte image of one `Vertex` under `bytemuck` casting: the two fields in
order, each little-endian. -/
def Vertex.bytes (v : Vertex) : List Nat :=
  leBytes4 v.pos.1 ++ leBytes4 v.pos.2

/-- The three vertices uploaded in `Renderer::new`:
(-1,-1), (0,1), (1,-1). -/
def triangleVertices : List Vertex :=
  [ { pos := (f32BitsNegOne, f32BitsNegOne) },
    { pos := (f32BitsZero, f32BitsOne) },
    { pos := (f32BitsOne, f32BitsNegOne) } ]

/-- `bytemuck::cast_slice` of the vertex array: concatenated vertex bytes. -/
def triangleVertexBytes : List Nat :=
  (triangleVertices.map Vertex.bytes).flatten

/-- The Rust `Renderer` struct: the pipeline (by its descriptor) and the
vertex buffer (by its creation data). -/
structure Renderer where
  render_pipeline : RenderPipelineDesc
  vertex_buffer : BufferDesc
deriving DecidableEq, Repr

/-- `Renderer::new`: builds the pipeline descriptor (empty bind-group and
push-constant layouts, entry points `vertex` and `fragment`, one vertex
buffer channel of stride 8 with a single Float32x2 attribute at offset 0 and
shader location 0, the context format as sole color target, default
primitive/multisample state, no depth-stencil, no multiview) and creates the
vertex buffer with the fixed triangle bytes. -/
def Renderer.new (context : RenderContext) : Renderer :=
  { render_pipeline :=
      { bindGroupLayouts := []
        pushConstantRanges := []
        vertexEntryPoint := "vertex"
        vertexBuffers :=
          [ { arrayStride := VERTEX_SIZE, stepMode := .Vertex,
              attributes := [{ format := .Float32x2, offset := 0, shaderLocation := 0 }] } ]
        fragmentEntryPoint := some "fragment"
        fragmentTargets := [some (ColorTargetState.ofFormat context.format)]
        primitive := PrimitiveState.default
        depthStencil := none
        multisample := MultisampleState.default
        multiview := none }
    vertex_buffer := { usage := VERTEX_USAGE, contents := triangleVertexBytes } }

/-- The `expect` messages of the program, by call site (kept abstract so the
model carries which dedicated diagnostic a given abort would print). -/
inductive ExpectMsg
  | createWindow
  | requestAdapter
  | requestDevice
  | getSurfaceTexture
deriving DecidableEq, Repr

/-- A Rust panic as this program can produce it: an `expect` with a dedicated
diagnostic, the generic slice-index-out-of-bounds panic (which carries no
program-supplied diagnostic), or the explicit `panic!` in `main` that embeds
the driver validation error. -/
inductive Panic
  | expectFailed (m : ExpectMsg)
  | indexOutOfBounds
  | rendererCreationFailed (e : GpuError)
deriving DecidableEq, Repr

/-- A recorded render-pass command. -/
inductive RenderCommand
  | setPipeline (p : RenderPipelineDesc)
  | setVertexBuffer (slot : Nat) (b : BufferDesc)
  | draw (vStart vEnd iStart iEnd : Nat)
deriving DecidableEq, Repr

/-- A recorded render pass: attachments and the command sequence. -/
structure RenderPass where
  colorAttachments : List (Option RenderPassColorAttachment)
  depthStencilAttachment : Option Unit
  commands : List RenderCommand
deriving DecidableEq, Repr

/-- A finished command buffer: its render passes. -/
structure CommandBuffer where
  passes : List RenderPass
deriving DecidableEq, Repr

/-- Device and queue operations issued during one `Renderer::draw` call, in
program order. -/
inductive GpuOp
  | pushErrorScope
  | getCurrentTexture
  | createView (tex : Nat)
  | finishCommands (cb : CommandBuffer)
  | submit (cbs : List CommandBuffer)
  | present (tex : Nat)
  | popErrorScope
deriving DecidableEq, Repr

/-- A console line: `println!` output to stdout, or the `eprintln!` in the
event loop that formats a draw validation error to stderr. -/
inductive ConsoleLine
  | out (s : String)
  | errDrawFailure (e : GpuError)
deriving DecidableEq, Repr

/-- Driver responses consumed by one `Renderer::draw` call: the next surface
texture (none models `get_current_texture` failing) and the validation
result delivered when the error scope is popped. -/
structure DriverFrame where
  nextTexture : Option Nat
  validation : Option GpuError
deriving DecidableEq, Repr

/-- Result of one `Renderer::draw` call: fatal panic, or the popped
validation-scope result returned to the caller. -/
inductive DrawOutcome
  | fatal (p : Panic)
  | ok (err : Option GpuError)
deriving DecidableEq, Repr

/-- Full observable result of one `Renderer::draw` call. -/
structure DrawResult where
  console : List ConsoleLine
  gpu : List GpuOp
  outcome : DrawOutcome
deriving DecidableEq, Repr

/-- The one command buffer recorded by `Renderer::draw`: a single render pass
whose sole color attachment clears the given texture view to `Color::RED`
and stores, followed by set-pipeline, set-vertex-buffer at slot 0, and a
non-indexed draw of vertices 0..3, instances 0..1. -/
def Renderer.drawCommandBuffer (r : Renderer) (view : Nat) : CommandBuffer :=
  { passes :=
      [ { colorAttachments :=
            [ some { ops := { load := .Clear Color.RED, store := true },
                     view := view, resolveTarget := none } ]
          depthStencilAttachment := none
          commands :=
            [ .setPipeline r.render_pipeline,
              .setVertexBuffer 0 r.vertex_buffer,
              .draw 0 3 0 1 ] } ] }

/-- `Renderer::draw`: print the fixed line, push a validation scope, acquire
the next surface texture (fatal `expect` if none), create its view (the view
handle equals the texture handle in this model), record and finish the one
command buffer, submit it, present, then pop the scope and return its
result. -/
def Renderer.draw (r : Renderer) (context : RenderContext) (d : DriverFrame) : DrawResult :=
  match d.nextTexture with
  | none =>
      { console := [.out "draw"]
        gpu := [.pushErrorScope, .getCurrentTexture]
        outcome := .fatal (.expectFailed .getSurfaceTexture) }
  | some tex =>
      { console := [.out "draw"]
        gpu :=
          [ .pushErrorScope, .getCurrentTexture, .createView tex,
            .finishCommands (r.drawCommandBuffer tex),
            .submit [r.drawCommandBuffer tex],
            .present tex, .popErrorScope ]
        outcome := .ok d.validation }

/-- Driver responses consumed during startup: whether window creation,
adapter request and device request succeed, the supported surface formats
reported by the adapter, the window inner size, and the validation result
for the scope around `Renderer::new`. -/
structure InitDriver where
  windowOk : Bool
  adapterOk : Bool
  supportedFormats : List TextureFormat
  deviceOk : Bool
  windowWidth : Nat
  windowHeight : Nat
  rendererValidation : Option GpuError
deriving DecidableEq, Repr

/-- The format selection in `RenderContext::new`:
`surface.get_supported_formats(&adapter)[0]`, a plain slice index with no
emptiness guard, so an empty list panics with the generic index-out-of-bounds
panic. -/
def chooseFormat (formats : List TextureFormat) : Except Panic TextureFormat :=
  match formats with
  | [] => .error .indexOutOfBounds
  | f :: _ => .ok f

/-- `RenderContext::new`: create window (expect), instance, surface, request
adapter (expect), take the first supported format, request device (expect),
then configure the surface for the window inner size with
render-attachment usage and `PresentMode::AutoVsync`.  Handles are fixed
abstract identities. -/
def RenderContext.new (d : InitDriver) : Except Panic (RenderContext × SurfaceState) :=
  if d.windowOk = false then .error (.expectFailed .createWindow)
  else if d.adapterOk = false then .error (.expectFailed .requestAdapter)
  else
    match chooseFormat d.supportedFormats with
    | .error p => .error p
    | .ok format =>
        if d.deviceOk = false then .error (.expectFailed .requestDevice)
        else
          .ok
            ( { instanceId := 0, device := 0, queue := 0, window := 0,
                surface := 0, format := format },
              { config := some
                  { format := format, width := d.windowWidth,
                    height := d.windowHeight, usage := RENDER_ATTACHMENT,
                    present_mode := .AutoVsync } } )

/-- The mutable world of the running program: the context and renderer
objects plus the driver-side surface state. -/
structure World where
  context : RenderContext
  renderer : Renderer
  surface : SurfaceState
deriving DecidableEq, Repr

/-- The `SurfaceConfiguration` built by `RenderContext::resize`: the stored
format, the new dimensions, render-attachment usage, `PresentMode::Fifo`. -/
def RenderContext.resizeConfig (c : RenderContext) (width height : Nat) : SurfaceConfiguration :=
  { format := c.format, width := width, height := height,
    usage := RENDER_ATTACHMENT, present_mode := .Fifo }

/-- `RenderContext::resize` acting on the world: reconfigures the surface;
everything else is untouched.  (The accompanying `request_redraw` is an
effect, emitted by the event handler.) -/
def resizeWorld (w : World) (width height : Nat) : World :=
  { w with surface := { config := some (w.context.resizeConfig width height) } }

/-- An observable effect of the event loop: a console line, a
`request_redraw` call to the windowing system, or a GPU operation. -/
inductive Effect
  | console (l : ConsoleLine)
  | requestRedraw
  | gpu (op : GpuOp)
deriving DecidableEq, Repr

/-- The winit events the loop body distinguishes. -/
inductive WinEvent
  | resized (width height : Nat)
  | closeRequested
  | otherWindowEvent
deriving DecidableEq, Repr

/-- Top-level events dispatched to the closure in `main`. -/
inductive Event
  | windowEvent (e : WinEvent)
  | redrawRequested
  | otherEvent
deriving DecidableEq, Repr

/-- Result of handling one event: continue with a new world, exit with a
code, or die on a panic; each with the effects emitted. -/
inductive StepResult
  | next (w : World) (effects : List Effect)
  | exit (code : Nat) (effects : List Effect)
  | fatal (p : Panic) (effects : List Effect)
deriving DecidableEq, Repr

/-- The console and GPU effects of one `Renderer::draw` call, in order. -/
def redrawEffects (w : World) (d : DriverFrame) : List Effect :=
  ((w.renderer.draw w.context d).console.map Effect.console)
    ++ ((w.renderer.draw w.context d).gpu.map Effect.gpu)

/-- The body of the `event_loop.run` closure: resize on `Resized` (which
also requests a redraw), exit with code 0 on `CloseRequested`, draw on
`RedrawRequested` (printing the returned validation error, if any, to
stderr), and ignore everything else. -/
def handleEvent (w : World) (ev : Event) (d : DriverFrame) : StepResult :=
  match ev with
  | .windowEvent (.resized width height) =>
      .next (resizeWorld w width height) [.requestRedraw]
  | .windowEvent .closeRequested => .exit 0 []
  | .windowEvent .otherWindowEvent => .next w []
  | .redrawRequested =>
      match (w.renderer.draw w.context d).outcome with
      | .fatal p => .fatal p (redrawEffects w d)
      | .ok none => .next w (redrawEffects w d)
      | .ok (some e) =>
          .next w (redrawEffects w d ++ [.console (.errDrawFailure e)])
  | .otherEvent => .next w []

/-- Outcome of running the loop on a finite event stream: still waiting for
events, exited via `ControlFlow::ExitWithCode`, or died on a panic. -/
inductive Outcome
  | pending
  | exited (code : Nat)
  | fatal (p : Panic)
deriving DecidableEq, Repr

/-- Result of a loop run: all effects in order, the outcome, and the final
world. -/
structure RunResult where
  effects : List Effect
  outcome : Outcome
  finalWorld : World
deriving DecidableEq, Repr

/-- The event loop on a finite event stream, each event paired with the
driver responses its handling consumes; stops at exit or panic. -/
def runLoop (w : World) : List (Event × DriverFrame) → RunResult
  | [] => { effects := [], outcome := .pending, finalWorld := w }
  | (ev, d) :: rest =>
      match handleEvent w ev d with
      | .next w2 effs =>
          let r := runLoop w2 rest
          { effects := effs ++ r.effects, outcome := r.outcome,
            finalWorld := r.finalWorld }
      | .exit code effs =>
          { effects := effs, outcome := .exited code, finalWorld := w }
      | .fatal p effs =>
          { effects := effs, outcome := .fatal p, finalWorld := w }

/-- Result of the whole program: effects, outcome, and whether the event
loop was entered at all. -/
structure MainResult where
  effects : List Effect
  outcome : Outcome
  enteredLoop : Bool
deriving DecidableEq, Repr

/-- `main`: build the context (any failure panics before the loop), push a
validation scope, build the renderer, pop the scope — a reported validation
error is fatal via the explicit `panic!` — and only then run the event
loop. -/
def mainRun (d : InitDriver) (events : List (Event × DriverFrame)) : MainResult :=
  match RenderContext.new d with
  | .error p => { effects := [], outcome := .fatal p, enteredLoop := false }
  | .ok (ctx, surf) =>
      let r := Renderer.new ctx
      match d.rendererValidation with
      | some e =>
          { effects := [], outcome := .fatal (.rendererCreationFailed e),
            enteredLoop := false }
      | none =>
          let res := runLoop { context := ctx, renderer := r, surface := surf } events
          { effects := res.effects, outcome := res.outcome, enteredLoop := true }

/-- Stdout lines among a list of effects, in order. -/
def stdoutLines : List Effect → List String
  | [] => []
  | .console (.out s) :: rest => s :: stdoutLines rest
  | _ :: rest => stdoutLines rest

/-- Stderr items (formatted draw validation errors) among a list of
effects, in order. -/
def stderrItems : List Effect → List GpuError
  | [] => []
  | .console (.errDrawFailure er) :: rest => er :: stderrItems rest
  | _ :: rest => stderrItems rest

/-- Number of frames presented in a list of effects. -/
def presentCount : List Effect → Nat
  | [] => 0
  | .gpu (.present _) :: rest => presentCount rest + 1
  | _ :: rest => presentCount rest

/-- The GPU operations among a list of effects, in order. -/
def gpuOps : List Effect → List GpuOp
  | [] => []
  | .gpu op :: rest => op :: gpuOps rest
  | _ :: rest => gpuOps rest

/-- Whether an outcome is a panic. -/
def Outcome.isFatal : Outcome → Bool
  | .fatal _ => true
  | _ => false

/-- A concrete startup driver response: everything succeeds, one supported
format, an 800x600 window, no validation error at renderer creation. -/
def demoDriver : InitDriver :=
  { windowOk := true, adapterOk := true, supportedFormats := [{ id := 0 }],
    deviceOk := true, windowWidth := 800, windowHeight := 600,
    rendererValidation := none }

/-- The context produced by `RenderContext.new demoDriver`. -/
def demoContext : RenderContext :=
  { instanceId := 0, device := 0, queue := 0, window := 0, surface := 0,
    format := { id := 0 } }

/-- The surface state produced by `RenderContext.new demoDriver`. -/
def demoSurface : SurfaceState :=
  { config := some
      { format := { id := 0 }, width := 800, height := 600,
        usage := RENDER_ATTACHMENT, present_mode := .AutoVsync } }

/-- The world at loop entry for `demoDriver`. -/
def demoWorld : World :=
  { context := demoContext, renderer := Renderer.new demoContext,
    surface := demoSurface }

/-- C1: `Renderer::draw` aborts fatally when no surface texture is
available; otherwise it performs, in order, the validation-scope push, the
texture acquisition, the view creation, the recording of exactly one
command buffer holding exactly one render pass (clear to pure red, bind the
pipeline, bind the vertex buffer at slot 0, one non-indexed draw of 3
vertices and 1 instance), the submit, the present, and the scope pop whose
result it returns. -/
theorem draw_records_single_red_pass (r : Renderer) (c : RenderContext) (d : DriverFrame) :
    (d.nextTexture = none →
      (r.draw c d).outcome = .fatal (.expectFailed .getSurfaceTexture))
  ∧ (∀ tex, d.nextTexture = some tex →
      (r.draw c d).gpu =
        [GpuOp.pushErrorScope, GpuOp.getCurrentTexture, GpuOp.createView tex,
         GpuOp.finishCommands (r.drawCommandBuffer tex),
         GpuOp.submit [r.drawCommandBuffer tex],
         GpuOp.present tex, GpuOp.popErrorScope]
      ∧ (r.drawCommandBuffer tex).passes =
          [ { colorAttachments :=
                [ some { ops := { load := .Clear { r := 1, g := 0, b := 0, a := 1 },
                                  store := true },
                         view := tex, resolveTarget := none } ]
              depthStencilAttachment := none
              commands :=
                [ .setPipeline r.render_pipeline,
                  .setVertexBuffer 0 r.vertex_buffer,
                  .draw 0 3 0 1 ] } ]
      ∧ (r.draw c d).outcome = .ok d.validation) := by
  constructor
  · intro h
    simp [Renderer.draw, h]
  · intro tex h
    refine ⟨by simp [Renderer.draw, h], ?_, by simp [Renderer.draw, h]⟩
    simp [Renderer.drawCommandBuffer, Color.RED]

/-- Witness for C1 at a concrete renderer, context and driver frame. -/
theorem draw_records_single_red_pass_witness :
    ((Renderer.new demoContext).draw demoContext
        { nextTexture := some 7, validation := none }).outcome = .ok none :=
  ((draw_records_single_red_pass (Renderer.new demoContext) demoContext
      { nextTexture := some 7, validation := none }).2 7 rfl).2.2

/-- C2 counterexample: at a concrete world, resize reconfigures with
`PresentMode::Fifo`, which is not a non-blocking/no-sync presentation mode
(it is the vsync mode), so the claim as stated fails. -/
theorem resize_mode_not_nosync :
    (resizeWorld demoWorld 400 300).surface.config =
      some { format := { id := 0 }, width := 400, height := 300,
             usage := RENDER_ATTACHMENT, present_mode := .Fifo }
  ∧ specNoSyncMode .Fifo = false :=
  ⟨rfl, rfl⟩

/-- C2 (amended): every resize event reconfigures the surface to exactly
the given dimensions with the fixed construction-time format,
render-attachment usage and unconditionally `PresentMode::Fifo` (the vsync
mode), requests a repaint, and returns nothing further. -/
theorem resize_reconfigures_fifo (w : World) (width height : Nat) (d : DriverFrame) :
    handleEvent w (.windowEvent (.resized width height)) d =
      .next
        { w with surface :=
            { config := some
                { format := w.context.format, width := width, height := height,
                  usage := RENDER_ATTACHMENT, present_mode := .Fifo } } }
        [.requestRedraw] :=
  rfl

/-- C3: over any event sequence (resizes, redraws, anything else), the
final world keeps the context (device, queue, surface format, handles) and
the renderer (pipeline and vertex buffer) of construction: resize mutates
only the surface configuration and draw mutates nothing. -/
theorem context_and_renderer_frozen (w : World) (events : List (Event × DriverFrame)) :
    (runLoop w events).finalWorld.context = w.context
  ∧ (runLoop w events).finalWorld.renderer = w.renderer := by
  induction events generalizing w with
  | nil => exact ⟨rfl, rfl⟩
  | cons p rest ih =>
    obtain ⟨ev, d⟩ := p
    cases ev with
    | windowEvent we =>
      cases we with
      | resized width height =>
        simpa [runLoop, handleEvent, resizeWorld] using ih (resizeWorld w width height)
      | closeRequested => simp [runLoop, handleEvent]
      | otherWindowEvent => simpa [runLoop, handleEvent] using ih w
    | redrawRequested =>
      cases h : (w.renderer.draw w.context d).outcome with
      | fatal p => simp [runLoop, handleEvent, h]
      | ok err =>
        cases err with
        | none => simpa [runLoop, handleEvent, h] using ih w
        | some e => simpa [runLoop, handleEvent, h] using ih w
    | otherEvent => simpa [runLoop, handleEvent] using ih w

/-- C4: renderer construction is deterministic — two contexts with the same
format yield identical renderers — and the vertex buffer contents are
exactly three records of two little-endian IEEE-754 single-precision
floats: (-1,-1), (0,1), (1,-1). -/
theorem renderer_construction_deterministic (c1 c2 : RenderContext)
    (h : c1.format = c2.format) :
    Renderer.new c1 = Renderer.new c2
  ∧ (Renderer.new c1).vertex_buffer.contents =
      leBytes4 f32BitsNegOne ++ leBytes4 f32BitsNegOne
        ++ (leBytes4 f32BitsZero ++ leBytes4 f32BitsOne)
        ++ (leBytes4 f32BitsOne ++ leBytes4 f32BitsNegOne)
  ∧ (Renderer.new c1).vertex_buffer.contents =
      [0, 0, 128, 191, 0, 0, 128, 191,
       0, 0, 0, 0, 0, 0, 128, 63,
       0, 0, 128, 63, 0, 0, 128, 191]
  ∧ (Renderer.new c1).vertex_buffer.contents.length = 3 * VERTEX_SIZE := by
  refine ⟨?_, rfl, rfl, rfl⟩
  simp [Renderer.new, ColorTargetState.ofFormat, h]

/-- Witness for C4 at a concrete context. -/
theorem renderer_construction_deterministic_witness :
    (Renderer.new demoContext).vertex_buffer.contents =
      [0, 0, 128, 191, 0, 0, 128, 191,
       0, 0, 0, 0, 0, 0, 128, 63,
       0, 0, 128, 63, 0, 0, 128, 191] :=
  (renderer_construction_deterministic demoContext demoContext rfl).2.2.1

/-- C5: resizing twice with the same dimensions leaves the surface
configuration equal to the result of a single resize. -/
theorem resize_idempotent (w : World) (width height : Nat) :
    (resizeWorld (resizeWorld w width height) width height).surface.config
      = (resizeWorld w width height).surface.config :=
  rfl

/-- A startup driver response whose renderer-scope validation reports an
error. -/
def demoDriverBadValidation : InitDriver :=
  { demoDriver with rendererValidation := some { code := 5 } }

/-- A startup driver response whose adapter reports no supported surface
format. -/
def demoDriverNoFormats : InitDriver :=
  { demoDriver with supportedFormats := [] }

/-- C6: the event loop is entered only when the validation scope around
renderer construction reported no error; if it reported an error, the
program dies on the explicit panic carrying that error, with no effects and
without entering the loop. -/
theorem construction_validation_gates_loop (d : InitDriver) (events : List (Event × DriverFrame)) :
    ((mainRun d events).enteredLoop = true → d.rendererValidation = none)
  ∧ (∀ e, d.rendererValidation = some e →
      ∀ ctx surf, RenderContext.new d = .ok (ctx, surf) →
        mainRun d events =
          { effects := [], outcome := .fatal (.rendererCreationFailed e),
            enteredLoop := false }) := by
  constructor
  · intro h
    cases hv : d.rendererValidation with
    | none => rfl
    | some e =>
      exfalso
      cases hn : RenderContext.new d with
      | error p => simp [mainRun, hn] at h
      | ok pr =>
        obtain ⟨ctx, surf⟩ := pr
        simp [mainRun, hn, hv] at h
  · intro e he ctx surf hn
    simp [mainRun, hn, he]

/-- Witness for C6 at a concrete failing startup driver. -/
theorem construction_validation_gates_loop_witness :
    mainRun demoDriverBadValidation [] =
      { effects := [], outcome := .fatal (.rendererCreationFailed { code := 5 }),
        enteredLoop := false } :=
  (construction_validation_gates_loop demoDriverBadValidation []).2 { code := 5 } rfl
    demoContext demoSurface rfl

/-- C7: a validation error reported during a draw is non-fatal: the handler
keeps the world unchanged, appends one stderr print of the error after the
draw effects, and the loop goes on to process the remaining events exactly
as it would have. -/
theorem draw_validation_error_nonfatal (w : World) (d : DriverFrame) (tex : Nat) (e : GpuError)
    (rest : List (Event × DriverFrame))
    (h1 : d.nextTexture = some tex) (h2 : d.validation = some e) :
    handleEvent w .redrawRequested d =
      .next w (redrawEffects w d ++ [.console (.errDrawFailure e)])
  ∧ runLoop w ((Event.redrawRequested, d) :: rest) =
      { effects := redrawEffects w d ++ [.console (.errDrawFailure e)]
                     ++ (runLoop w rest).effects,
        outcome := (runLoop w rest).outcome,
        finalWorld := (runLoop w rest).finalWorld } := by
  have hd : (w.renderer.draw w.context d).outcome = .ok (some e) := by
    simp [Renderer.draw, h1, h2]
  constructor
  · simp [handleEvent, hd]
  · simp [runLoop, handleEvent, hd]

/-- Witness for C7 at a concrete world and driver frame. -/
theorem draw_validation_error_nonfatal_witness :
    handleEvent demoWorld .redrawRequested
        { nextTexture := some 3, validation := some { code := 9 } } =
      .next demoWorld
        (redrawEffects demoWorld { nextTexture := some 3, validation := some { code := 9 } }
          ++ [.console (.errDrawFailure { code := 9 })]) :=
  (draw_validation_error_nonfatal demoWorld
      { nextTexture := some 3, validation := some { code := 9 } } 3 { code := 9 } []
      rfl rfl).1

/-- C8: once a close-requested event is handled after a quiescent prefix,
the run exits with code 0 and its effects are exactly the effects of the
prefix: no draw happens at or after the close event. -/
theorem close_requested_exits (w : World) (pre post : List (Event × DriverFrame))
    (dc : DriverFrame) (h : (runLoop w pre).outcome = .pending) :
    (runLoop w (pre ++ (Event.windowEvent .closeRequested, dc) :: post)).outcome
      = .exited 0
  ∧ (runLoop w (pre ++ (Event.windowEvent .closeRequested, dc) :: post)).effects
      = (runLoop w pre).effects := by
  induction pre generalizing w with
  | nil => exact ⟨by simp [runLoop, handleEvent], by simp [runLoop, handleEvent]⟩
  | cons p rest ih =>
    obtain ⟨ev, d⟩ := p
    cases hs : handleEvent w ev d with
    | next w2 effs =>
      have h2 : (runLoop w2 rest).outcome = .pending := by
        simpa [runLoop, hs] using h
      obtain ⟨o1, e1⟩ := ih w2 h2
      constructor
      · simpa [runLoop, hs, List.cons_append] using o1
      · simp [runLoop, hs, List.cons_append, e1]
    | exit code effs => simp [runLoop, hs] at h
    | fatal p effs => simp [runLoop, hs] at h

/-- Witness for C8: a run consisting of one close-requested event. -/
theorem close_requested_exits_witness :
    (runLoop demoWorld
        [(Event.windowEvent .closeRequested, { nextTexture := none, validation := none })]).outcome
      = .exited 0 :=
  (close_requested_exits demoWorld [] [] { nextTexture := none, validation := none } rfl).1

/-- Console shape of a non-panicking loop run: stdout is one fixed line per
presented frame and every console effect is that line or a formatted draw
validation error. -/
theorem runLoop_console_shape (w : World) (events : List (Event × DriverFrame))
    (h : (runLoop w events).outcome.isFatal = false) :
    stdoutLines (runLoop w events).effects
      = List.replicate (presentCount (runLoop w events).effects) "draw"
  ∧ ∀ l, Effect.console l ∈ (runLoop w events).effects →
      l = .out "draw" ∨ ∃ e, l = .errDrawFailure e := by
  induction events generalizing w with
  | nil => exact ⟨rfl, by intro l hl; simp [runLoop] at hl⟩
  | cons p rest ih =>
    obtain ⟨ev, d⟩ := p
    cases ev with
    | windowEvent we =>
      cases we with
      | resized a b =>
        have h2 : (runLoop (resizeWorld w a b) rest).outcome.isFatal = false := by
          simpa [runLoop, handleEvent] using h
        obtain ⟨s1, s2⟩ := ih (resizeWorld w a b) h2
        constructor
        · simpa [runLoop, handleEvent, stdoutLines, presentCount] using s1
        · intro l hl
          simp [runLoop, handleEvent] at hl
          exact s2 l hl
      | closeRequested =>
        exact ⟨rfl, by intro l hl; simp [runLoop, handleEvent] at hl⟩
      | otherWindowEvent =>
        have h2 : (runLoop w rest).outcome.isFatal = false := by
          simpa [runLoop, handleEvent] using h
        obtain ⟨s1, s2⟩ := ih w h2
        exact ⟨by simpa [runLoop, handleEvent] using s1,
               by intro l hl; simp [runLoop, handleEvent] at hl; exact s2 l hl⟩
    | redrawRequested =>
      cases ht : d.nextTexture with
      | none =>
        exfalso
        simp [runLoop, handleEvent, Renderer.draw, ht, Outcome.isFatal] at h
      | some tex =>
        cases hv : d.validation with
        | none =>
          have hd : (w.renderer.draw w.context d).outcome = .ok none := by
            simp [Renderer.draw, ht, hv]
          have h2 : (runLoop w rest).outcome.isFatal = false := by
            simpa [runLoop, handleEvent, hd] using h
          obtain ⟨s1, s2⟩ := ih w h2
          constructor
          · simp [runLoop, handleEvent, hd, redrawEffects, Renderer.draw, ht, hv,
                  stdoutLines, presentCount, s1, List.replicate_succ]
          · intro l hl
            simp [runLoop, handleEvent, hd, redrawEffects, Renderer.draw, ht, hv] at hl
            rcases hl with h | h
            · exact Or.inl h
            · exact s2 l h
        | some e =>
          have hd : (w.renderer.draw w.context d).outcome = .ok (some e) := by
            simp [Renderer.draw, ht, hv]
          have h2 : (runLoop w rest).outcome.isFatal = false := by
            simpa [runLoop, handleEvent, hd] using h
          obtain ⟨s1, s2⟩ := ih w h2
          constructor
          · simp [runLoop, handleEvent, hd, redrawEffects, Renderer.draw, ht, hv,
                  stdoutLines, presentCount, s1, List.replicate_succ]
          · intro l hl
            simp [runLoop, handleEvent, hd, redrawEffects, Renderer.draw, ht, hv] at hl
            rcases hl with h | h | h
            · exact Or.inl h
            · exact Or.inr ⟨e, h⟩
            · exact s2 l h
    | otherEvent =>
      have h2 : (runLoop w rest).outcome.isFatal = false := by
        simpa [runLoop, handleEvent] using h
      obtain ⟨s1, s2⟩ := ih w h2
      exact ⟨by simpa [runLoop, handleEvent] using s1,
             by intro l hl; simp [runLoop, handleEvent] at hl; exact s2 l hl⟩

/-- C9: in any non-panicking run of the program, stdout is exactly one
fixed line per frame presented, and every console effect is either that
stdout line or a draw validation error formatted to stderr. -/
theorem console_output_per_frame (d : InitDriver) (events : List (Event × DriverFrame))
    (h : (mainRun d events).outcome.isFatal = false) :
    stdoutLines (mainRun d events).effects
      = List.replicate (presentCount (mainRun d events).effects) "draw"
  ∧ ∀ l, Effect.console l ∈ (mainRun d events).effects →
      l = .out "draw" ∨ ∃ e, l = .errDrawFailure e := by
  cases hn : RenderContext.new d with
  | error p => exfalso; simp [mainRun, hn, Outcome.isFatal] at h
  | ok pr =>
    obtain ⟨ctx, surf⟩ := pr
    cases hv : d.rendererValidation with
    | some e => exfalso; simp [mainRun, hn, hv, Outcome.isFatal] at h
    | none =>
      have h2 : (runLoop { context := ctx, renderer := Renderer.new ctx, surface := surf }
          events).outcome.isFatal = false := by
        simpa [mainRun, hn, hv] using h
      have hs := runLoop_console_shape
        { context := ctx, renderer := Renderer.new ctx, surface := surf } events h2
      simpa [mainRun, hn, hv] using hs

/-- Witness for C9: a concrete run with one successful frame. -/
theorem console_output_per_frame_witness :
    stdoutLines (mainRun demoDriver
        [(Event.redrawRequested, { nextTexture := some 1, validation := none })]).effects
      = List.replicate (presentCount (mainRun demoDriver
          [(Event.redrawRequested, { nextTexture := some 1, validation := none })]).effects)
          "draw" :=
  (console_output_per_frame demoDriver
      [(Event.redrawRequested, { nextTexture := some 1, validation := none })] rfl).1

/-- C10: format selection takes element 0 of the supported-format list with
no emptiness guard: a non-empty list yields its head, the empty list panics
with the generic index-out-of-bounds panic (which is distinct from every
dedicated `expect` diagnostic), and any successfully constructed context
carries the head of the reported list as its format. -/
theorem format_first_unguarded (fs : List TextureFormat) (f : TextureFormat) (d : InitDriver) :
    chooseFormat (f :: fs) = .ok f
  ∧ chooseFormat [] = .error .indexOutOfBounds
  ∧ (d.windowOk = true → d.adapterOk = true → d.supportedFormats = [] →
      RenderContext.new d = .error Panic.indexOutOfBounds)
  ∧ (∀ m, Panic.indexOutOfBounds ≠ Panic.expectFailed m)
  ∧ (∀ ctx surf, RenderContext.new d = .ok (ctx, surf) →
      d.supportedFormats.head? = some ctx.format) := by
  refine ⟨rfl, rfl, ?_, ?_, ?_⟩
  · intro h1 h2 h3
    simp [RenderContext.new, h1, h2, h3, chooseFormat]
  · intro m hc
    cases hc
  · intro ctx surf hok
    by_cases hw : d.windowOk = false
    · simp [RenderContext.new, hw] at hok
    · by_cases ha : d.adapterOk = false
      · simp [RenderContext.new, hw, ha] at hok
      · cases hfs : d.supportedFormats with
        | nil => simp [RenderContext.new, hw, ha, hfs, chooseFormat] at hok
        | cons f0 fsrest =>
          by_cases hdev : d.deviceOk = false
          · simp [RenderContext.new, hw, ha, hfs, chooseFormat, hdev] at hok
          · simp [RenderContext.new, hw, ha, hfs, chooseFormat, hdev] at hok
            obtain ⟨hctx, hsurf⟩ := hok
            simp [hfs, ← hctx]

/-- Witness for C10: the empty-format-list startup panics on the index. -/
theorem format_first_unguarded_witness :
    RenderContext.new demoDriverNoFormats = .error Panic.indexOutOfBounds :=
  (format_first_unguarded [] { id := 0 } demoDriverNoFormats).2.2.1 rfl rfl rfl

end Triangle
